import Mathlib

/-!
Shallow embedding of the Revolt desktop shell (`src/main.ts`) and proofs
about its behaviour: the persisted configuration store and the IPC `set`
handler, the window/tray lifecycle state machine (close interception,
tray click, tray menu rebuilds), the relaunch teardown, and the
navigation / window-open security policy.
-/

namespace Revolt

/-! ## Configuration data and the `set` handler

`ConfigData` embeds the fields of the persisted `config` object that the
main process reads (`frame`, `minimiseToTray`, `discordRPC`).
`ConfigPatch` embeds a `Partial<ConfigData>` IPC argument: a field that
is `none` is absent from the patch object (`typeof x === "undefined"`).
-/

structure ConfigData where
  frame : Bool
  minimiseToTray : Bool
  discordRPC : Bool
  deriving DecidableEq, Repr

structure ConfigPatch where
  frame : Option Bool
  minimiseToTray : Option Bool
  discordRPC : Option Bool
  deriving DecidableEq, Repr

/-- Embeds the JavaScript spread-merge `{ ...store.get("config"), ...arg }`:
a field present in the patch wins, an absent field keeps the stored value. -/
def mergeConfig (old : ConfigData) (patch : ConfigPatch) : ConfigData :=
  { frame := patch.frame.getD old.frame
    minimiseToTray := patch.minimiseToTray.getD old.minimiseToTray
    discordRPC := patch.discordRPC.getD old.discordRPC }

/-- Observable side effects of the `set` IPC handler, in program order. -/
inductive Effect where
  | connectRPC
  | dropRPC
  | persist (cfg : ConfigData)
  deriving DecidableEq, Repr

/-- Embeds the `ipcMain.on("set", ...)` handler: if `arg.discordRPC` is
defined, call `connectRPC()` or `dropRPC()`; then write the spread-merge
of the stored config and the patch back to the store. Returns the new
stored config together with the emitted effect trace. -/
def setHandler (storeCfg : ConfigData) (arg : ConfigPatch) : ConfigData × List Effect :=
  let rpcEffects : List Effect :=
    match arg.discordRPC with
    | none => []
    | some b => if b then [Effect.connectRPC] else [Effect.dropRPC]
  let newCfg := mergeConfig storeCfg arg
  (newCfg, rpcEffects ++ [Effect.persist newCfg])

/-! ## URL origins

The `will-navigate` handler builds `new URL(navigationUrl)` and compares
`parsedUrl.origin` against `getBuildURL()`. `urlOrigin` embeds the WHATWG
(Node `url.URL`) `origin` getter for the inputs relevant here: for a
special scheme (`http`, `https`, `ws`, `wss`, `ftp`) with a `//`
authority it is `scheme://host` with the port appended only when it is
not the scheme's default; every other URL (including `file:` and
`mailto:`) has the opaque origin, serialised as the string `"null"`.
Scheme and host are lowercased; IPv6 bracket hosts are not modelled. -/

def splitOnColon : List Char → Option (List Char × List Char)
  | [] => none
  | c :: cs =>
    if c = ':' then some ([], cs)
    else
      match splitOnColon cs with
      | none => none
      | some (a, b) => some (c :: a, b)

def isSpecialScheme (s : List Char) : Bool :=
  s == "http".data || s == "https".data || s == "ws".data
    || s == "wss".data || s == "ftp".data

def schemeDefaultPort (s : List Char) : List Char :=
  if s == "http".data || s == "ws".data then "80".data
  else if s == "https".data || s == "wss".data then "443".data
  else "21".data

/-- Drop the userinfo part (everything up to the last `@`) of an authority. -/
def hostAfterUserinfo (auth : List Char) : List Char :=
  (auth.reverse.takeWhile (fun c => !(c == '@'))).reverse

def splitHostPort (hp : List Char) : List Char × List Char :=
  match splitOnColon hp with
  | none => (hp, [])
  | some (h, p) => (h, p)

def urlOriginChars (u : List Char) : List Char :=
  match splitOnColon u with
  | none => "null".data
  | some (rawScheme, rest) =>
    let scheme := rawScheme.map Char.toLower
    if isSpecialScheme scheme then
      match rest with
      | '/' :: '/' :: rest2 =>
        let auth := rest2.takeWhile (fun c => !(c == '/' || c == '?' || c == '#'))
        let hp := hostAfterUserinfo auth
        let host := (splitHostPort hp).1.map Char.toLower
        let port := (splitHostPort hp).2
        if port.isEmpty || port == schemeDefaultPort scheme then
          scheme ++ ':' :: '/' :: '/' :: host
        else
          scheme ++ ':' :: '/' :: '/' :: host ++ ':' :: port
      | _ => "null".data
    else "null".data

def urlOrigin (u : String) : String := String.mk (urlOriginChars u.data)

/-- Scheme of a URL string: the characters before the first `:`, if any. -/
def urlScheme (u : String) : Option String :=
  (splitOnColon u.data).map (fun p => String.mk p.1)

/-- Embeds the `will-navigate` handler: the navigation is cancelled
(`event.preventDefault()`) exactly when `parsedUrl.origin !== getBuildURL()`.
Note the comparison is against the full build URL string, not against the
build URL's origin. -/
def willNavigateCancels (buildURL navigationUrl : String) : Bool :=
  urlOrigin navigationUrl != buildURL

/-! ## Window-open policy -/

inductive OpenAction where
  | deny
  | allow
  deriving DecidableEq, Repr

/-- Result of the window-open handler: the action returned synchronously,
and the list of URLs handed to `shell.openExternal` (each deferred by one
`setImmediate` tick). -/
structure WindowOpenResult where
  action : OpenAction
  deferredExternalOpens : List String
  deriving DecidableEq, Repr

/-- Embeds `contents.setWindowOpenHandler`: always return `deny`; if the
URL starts with `http:`, `https:` or `mailto:`, additionally defer one
`shell.openExternal(url)` call. -/
def windowOpenHandler (url : String) : WindowOpenResult :=
  if List.isPrefixOf "http:".data url.data
      || List.isPrefixOf "https:".data url.data
      || List.isPrefixOf "mailto:".data url.data then
    { action := OpenAction.deny, deferredExternalOpens := [url] }
  else
    { action := OpenAction.deny, deferredExternalOpens := [] }

/-! ## Window / tray lifecycle state machine

`SystemState` embeds the mutable state the handlers in `createWindow`
close over: the application flags `shouldQuit` / `shouldRelaunch`, the
persisted store's `config` object, the `initialConfig` snapshot taken by
`getConfig()` at window creation (used only for creation-time options
such as `frame`), the window's liveness / visibility / focus, and the
toggle-item label of the tray's current context menu. -/

structure SystemState where
  shouldQuit : Bool
  shouldRelaunch : Bool
  storeConfig : ConfigData
  initialConfig : ConfigData
  windowDestroyed : Bool
  windowVisible : Bool
  windowFocused : Bool
  trayToggleLabel : String
  deriving DecidableEq, Repr

/-- Label of the tray menu's toggle item as built by `buildMenu`:
`mainWindow.isVisible() ? "Hide Revolt" : "Show Revolt"`. -/
def buildMenuLabel (visible : Bool) : String :=
  if visible then "Hide Revolt" else "Show Revolt"

/-- Embeds `mainWindow.show()` followed by the `show` event handler
(`buildMenu()`): the window becomes visible and focused and the tray
menu is rebuilt from the new visibility. -/
def windowShow (s : SystemState) : SystemState :=
  { s with windowVisible := true, windowFocused := true,
           trayToggleLabel := buildMenuLabel true }

/-- Embeds `mainWindow.hide()` followed by the `hide` event handler
(`buildMenu()`): the window becomes hidden and unfocused and the tray
menu is rebuilt from the new visibility. -/
def windowHide (s : SystemState) : SystemState :=
  { s with windowVisible := false, windowFocused := false,
           trayToggleLabel := buildMenuLabel false }

/-- Condition of the `close` event handler:
`!app.shouldQuit && !app.shouldRelaunch && store.get("config").minimiseToTray`.
It reads `minimiseToTray` from the store at close time, not from the
`initialConfig` snapshot. -/
def closeIntercepts (s : SystemState) : Bool :=
  !s.shouldQuit && !s.shouldRelaunch && s.storeConfig.minimiseToTray

/-- Embeds a close request on the window: if the interception condition
holds, `event.preventDefault()` plus `mainWindow.hide()` (the window
survives); otherwise the close proceeds and the window is destroyed. -/
def closeRequest (s : SystemState) : SystemState :=
  if closeIntercepts s then
    windowHide s
  else
    { s with windowDestroyed := true, windowVisible := false, windowFocused := false }

/-- Embeds the tray `click` handler: visible and focused → hide; visible
but unfocused → focus; hidden → show. -/
def trayClick (s : SystemState) : SystemState :=
  if s.windowVisible then
    if s.windowFocused then windowHide s
    else { s with windowFocused := true }
  else
    windowShow s

/-- Embeds the `set` IPC handler acting on the whole system state: only
the persisted store changes, and the effect trace is reported. -/
def ipcSet (s : SystemState) (arg : ConfigPatch) : SystemState × List Effect :=
  ({ s with storeConfig := (setHandler s.storeConfig arg).1 },
   (setHandler s.storeConfig arg).2)

/-- Embeds the state right after `createWindow()` ran with config `cfg`
in the store: `initialConfig := getConfig()`, the window is shown and
focused, no quit/relaunch intent, and `buildMenu()` has just run. -/
def createWindow (cfg : ConfigData) : SystemState :=
  { shouldQuit := false
    shouldRelaunch := false
    storeConfig := cfg
    initialConfig := cfg
    windowDestroyed := false
    windowVisible := true
    windowFocused := true
    trayToggleLabel := buildMenuLabel true }

/-- Events that drive the state machine after window creation. -/
inductive UiEvent where
  | show
  | hide
  | tray
  | close
  | relaunch
  | set (arg : ConfigPatch)
  deriving DecidableEq, Repr

/-- One step of the event loop. A destroyed window emits and receives no
window events; the `set` IPC channel acts on the store directly. The
`relaunch` IPC command sets `shouldRelaunch` and then closes the window. -/
def step (s : SystemState) (e : UiEvent) : SystemState :=
  match e with
  | UiEvent.show => if s.windowDestroyed then s else windowShow s
  | UiEvent.hide => if s.windowDestroyed then s else windowHide s
  | UiEvent.tray => if s.windowDestroyed then s else trayClick s
  | UiEvent.close => if s.windowDestroyed then s else closeRequest s
  | UiEvent.relaunch =>
    if s.windowDestroyed then s
    else closeRequest { s with shouldRelaunch := true }
  | UiEvent.set arg => (ipcSet s arg).1

/-! ## Relaunch teardown -/

structure RelaunchOptions where
  args : List String
  execPath : String
  deriving DecidableEq, Repr

inductive TeardownAction where
  | relaunch (opts : RelaunchOptions)
  | quit
  deriving DecidableEq, Repr

/-- Truthiness of an environment variable in JavaScript: unset or empty
is falsy. -/
def envTruthy : Option String → Bool
  | none => false
  | some s => !(s == "")

/-- Embeds the construction of `RelaunchOptions` in the
`window-all-closed` handler: `args = process.argv.slice(1) + ["--relaunch"]`
and `execPath = process.execPath`; when `App.isPackaged` and the
`APPIMAGE` environment variable is truthy, `execPath` is overridden to
the AppImage path and `--appimage-extract-and-run` is unshifted onto the
args. -/
def relaunchOptionsFor (argv : List String) (execPath : String)
    (isPackaged : Bool) (appimage : Option String) : RelaunchOptions :=
  let base : RelaunchOptions :=
    { args := argv.drop 1 ++ ["--relaunch"], execPath := execPath }
  if isPackaged && envTruthy appimage then
    { args := "--appimage-extract-and-run" :: base.args,
      execPath := appimage.getD "" }
  else base

/-- Embeds the `window-all-closed` handler: with relaunch intent it calls
`App.relaunch(options)` then `App.quit()` and returns; otherwise it quits
except on darwin. -/
def windowAllClosed (shouldRelaunch : Bool) (argv : List String) (execPath : String)
    (isPackaged : Bool) (appimage : Option String) (platform : String) :
    List TeardownAction :=
  if shouldRelaunch then
    [TeardownAction.relaunch (relaunchOptionsFor argv execPath isPackaged appimage),
     TeardownAction.quit]
  else if !(platform == "darwin") then [TeardownAction.quit]
  else []

/-! ## Helper lemmas -/

theorem splitOnColon_append (p r : List Char)
    (hp : p.all (fun c => !(c == ':')) = true) :
    splitOnColon (p ++ ':' :: r) = some (p, r) := by
  induction p with
  | nil => simp [splitOnColon]
  | cons c cs ih =>
    simp only [List.all_cons, Bool.and_eq_true] at hp
    obtain ⟨hc, hcs⟩ := hp
    have hc' : ¬(c = ':') := by simpa using hc
    simp [splitOnColon, hc', ih hcs]

theorem splitOnColon_eq_some (l : List Char) (p r : List Char)
    (h : splitOnColon l = some (p, r)) : l = p ++ ':' :: r := by
  induction l generalizing p r with
  | nil => simp [splitOnColon] at h
  | cons c cs ih =>
    by_cases hc : c = ':'
    · subst hc
      simp [splitOnColon] at h
      obtain ⟨hp, hr⟩ := h
      simp [← hp, ← hr]
    · simp only [splitOnColon, if_neg hc] at h
      rcases hsp : splitOnColon cs with _ | ⟨a, b⟩
      · rw [hsp] at h; simp at h
      · rw [hsp] at h
        simp at h
        obtain ⟨hp, hr⟩ := h
        subst hr
        rw [← hp, ih a b hsp]
        simp

theorem startsWith_colon_iff_urlScheme (s url : String)
    (hs : s.data.all (fun c => !(c == ':')) = true) :
    List.isPrefixOf (s.data ++ [':']) url.data = true ↔ urlScheme url = some s := by
  constructor
  · intro h
    obtain ⟨t, ht⟩ := List.isPrefixOf_iff_prefix.mp h
    have hdata : url.data = s.data ++ ':' :: t := by
      rw [← ht]; simp
    unfold urlScheme
    rw [hdata, splitOnColon_append s.data t hs]
    rfl
  · intro h
    unfold urlScheme at h
    rcases hsp : splitOnColon url.data with _ | ⟨p, r⟩
    · rw [hsp] at h; simp at h
    · rw [hsp] at h
      simp at h
      have hp : p = s.data := congrArg String.data h
      rw [splitOnColon_eq_some url.data p r hsp, hp]
      exact List.isPrefixOf_iff_prefix.mpr ⟨r, by simp⟩

/-! ## C1: will-navigate origin policy -/

/-- C1 counterexample: the claim says an identical-origin URL is never
cancelled, but the handler compares `parsedUrl.origin` against the full
build URL string. With the build URL `"https://app.revolt.chat/"` (equal
origin, trailing slash), navigating to `"https://app.revolt.chat/login"`
has the identical origin yet is cancelled. -/
theorem navigation_origin_claim_counterexample :
    urlOrigin "https://app.revolt.chat/login" = urlOrigin "https://app.revolt.chat/"
    ∧ willNavigateCancels "https://app.revolt.chat/" "https://app.revolt.chat/login" = true := by
  decide

/-- C1 (amended): a will-navigate attempt is cancelled iff the target's
origin differs from the full configured build URL string; whenever the
configured build URL is itself exactly an origin (equal to its own
origin), this coincides with the claimed origin-versus-origin
comparison. -/
theorem navigation_cancel_characterisation (buildURL url : String) :
    (willNavigateCancels buildURL url = true ↔ urlOrigin url ≠ buildURL)
    ∧ (urlOrigin buildURL = buildURL →
        (willNavigateCancels buildURL url = true ↔ urlOrigin url ≠ urlOrigin buildURL)) := by
  constructor
  · simp [willNavigateCancels]
  · intro h
    rw [h]
    simp [willNavigateCancels]

/-- Witness for the amended C1 theorem: with the origin-shaped build URL
`"https://app.revolt.chat"`, a cross-origin navigation is cancelled. -/
theorem navigation_cancel_characterisation_witness :
    willNavigateCancels "https://app.revolt.chat" "https://example.com" = true :=
  ((navigation_cancel_characterisation "https://app.revolt.chat" "https://example.com").2
    (by decide)).mpr (by decide)

/-! ## C3: window-open policy -/

/-- C3: every window-open request synchronously returns the deny action,
and exactly one deferred external open of the same URL happens iff the
URL's scheme is `http`, `https` or `mailto`; any other scheme gets zero
external opens. -/
theorem window_open_deny_and_external (url : String) :
    (windowOpenHandler url).action = OpenAction.deny
    ∧ (windowOpenHandler url).deferredExternalOpens
        = (if urlScheme url = some "http" ∨ urlScheme url = some "https"
              ∨ urlScheme url = some "mailto"
           then [url] else []) := by
  have h1 : List.isPrefixOf "http:".data url.data = true ↔ urlScheme url = some "http" := by
    have hd : "http:".data = "http".data ++ [':'] := by decide
    rw [hd]
    exact startsWith_colon_iff_urlScheme "http" url (by decide)
  have h2 : List.isPrefixOf "https:".data url.data = true ↔ urlScheme url = some "https" := by
    have hd : "https:".data = "https".data ++ [':'] := by decide
    rw [hd]
    exact startsWith_colon_iff_urlScheme "https" url (by decide)
  have h3 : List.isPrefixOf "mailto:".data url.data = true ↔ urlScheme url = some "mailto" := by
    have hd : "mailto:".data = "mailto".data ++ [':'] := by decide
    rw [hd]
    exact startsWith_colon_iff_urlScheme "mailto" url (by decide)
  have hcond : (List.isPrefixOf "http:".data url.data
      || List.isPrefixOf "https:".data url.data
      || List.isPrefixOf "mailto:".data url.data) = true
      ↔ (urlScheme url = some "http" ∨ urlScheme url = some "https"
          ∨ urlScheme url = some "mailto") := by
    simp only [Bool.or_eq_true, h1, h2, h3, or_assoc]
  constructor
  · unfold windowOpenHandler
    split <;> rfl
  · unfold windowOpenHandler
    by_cases hb : (List.isPrefixOf "http:".data url.data
        || List.isPrefixOf "https:".data url.data
        || List.isPrefixOf "mailto:".data url.data) = true
    · rw [if_pos hb, if_pos (hcond.mp hb)]
    · rw [if_neg hb, if_neg (fun hc => hb (hcond.mpr hc))]

/-! ## C2: close interception -/

/-- C2: a close request on a live window is converted into a hide (the
window survives and can be shown again) when `minimiseToTray` is set in
the persisted config and neither `shouldQuit` nor `shouldRelaunch` is
set; in every other case — in particular whenever `shouldRelaunch` is
true — the close proceeds and destroys the window. -/
theorem close_minimise_to_tray (s : SystemState) (hd : s.windowDestroyed = false) :
    ((s.storeConfig.minimiseToTray = true ∧ s.shouldQuit = false ∧ s.shouldRelaunch = false) →
      ((closeRequest s).windowDestroyed = false
        ∧ (closeRequest s).windowVisible = false
        ∧ (windowShow (closeRequest s)).windowVisible = true))
    ∧ (¬(s.storeConfig.minimiseToTray = true ∧ s.shouldQuit = false ∧ s.shouldRelaunch = false) →
      (closeRequest s).windowDestroyed = true)
    ∧ (s.shouldRelaunch = true → (closeRequest s).windowDestroyed = true) := by
  cases hq : s.shouldQuit <;> cases hr : s.shouldRelaunch <;>
    cases hm : s.storeConfig.minimiseToTray <;>
      simp [closeRequest, closeIntercepts, windowShow, windowHide, hq, hr, hm, hd]

/-- Witness for C2 at a concrete state: with `minimiseToTray = true` and
no quit/relaunch intent, the close does not destroy the window. -/
theorem close_minimise_to_tray_witness :
    (closeRequest (createWindow (ConfigData.mk true true true))).windowDestroyed = false :=
  ((close_minimise_to_tray (createWindow (ConfigData.mk true true true)) rfl).1
    ⟨rfl, rfl, rfl⟩).1

/-! ## C4: tray-icon click -/

/-- C4: a tray-icon primary click is a three-way branch: a hidden window
is shown; a visible focused window is hidden; a visible unfocused window
is only focused — it stays visible (never a plain visibility toggle). -/
theorem tray_click_three_way (s : SystemState) :
    (s.windowVisible = false → trayClick s = windowShow s)
    ∧ (s.windowVisible = true → s.windowFocused = true → trayClick s = windowHide s)
    ∧ (s.windowVisible = true → s.windowFocused = false →
        trayClick s = { s with windowFocused := true }
        ∧ (trayClick s).windowVisible = true
        ∧ (trayClick s).trayToggleLabel = s.trayToggleLabel) := by
  cases hv : s.windowVisible <;> cases hf : s.windowFocused <;>
    simp [trayClick, hv, hf]

/-- Witness for C4: clicking the tray icon while the window is visible
and focused hides the window. -/
theorem tray_click_three_way_witness :
    trayClick (createWindow (ConfigData.mk true true true))
      = windowHide (createWindow (ConfigData.mk true true true)) :=
  (tray_click_three_way (createWindow (ConfigData.mk true true true))).2.1 rfl rfl

/-! ## C5: tray menu label freshness -/

/-- Invariant: on a live window, the tray menu's toggle label matches the
current visibility. -/
def trayLabelOk (s : SystemState) : Prop :=
  s.windowDestroyed = false → s.trayToggleLabel = buildMenuLabel s.windowVisible

theorem step_preserves_trayLabelOk (s : SystemState) (e : UiEvent) (h : trayLabelOk s) :
    trayLabelOk (step s e) := by
  unfold trayLabelOk at h ⊢
  by_cases hd : s.windowDestroyed = true
  · cases e <;>
      simp only [step, hd, if_pos, ipcSet] <;>
      first
        | exact h
        | (intro hcontra; simp [hcontra] at hd; exact h hd)
  · have hd' : s.windowDestroyed = false := by
      cases hdd : s.windowDestroyed
      · rfl
      · exact absurd hdd hd
    have hlbl := h hd'
    rcases e with _ | _ | _ | _ | _ | arg
    · intro _
      simp [step, hd', windowShow]
    · intro _
      simp [step, hd', windowHide]
    · intro hstep
      by_cases hv : s.windowVisible = true
      · by_cases hf : s.windowFocused = true
        · simp [step, hd', trayClick, hv, hf, windowHide]
        · simp [step, hd', trayClick, hv, hf]
          rw [hlbl, hv]
      · have hv' : s.windowVisible = false := by
          cases hvv : s.windowVisible
          · rfl
          · exact absurd hvv hv
        simp [step, hd', trayClick, hv', windowShow]
    · intro hstep
      by_cases hi : closeIntercepts s = true
      · simp [step, hd', closeRequest, hi, windowHide]
      · simp only [step, hd', if_neg, Bool.false_eq_true, not_false_eq_true,
          closeRequest] at hstep
        simp [hi] at hstep
    · intro hstep
      simp [step, hd', closeRequest, closeIntercepts] at hstep
    · intro _
      simpa [step, ipcSet] using hlbl

theorem foldl_preserves_trayLabelOk (es : List UiEvent) (s : SystemState)
    (h : trayLabelOk s) : trayLabelOk (es.foldl step s) := by
  induction es generalizing s with
  | nil => exact h
  | cons e rest ih => exact ih (step s e) (step_preserves_trayLabelOk s e h)

/-- C5: after any sequence of events following window creation, as long
as the window is alive, the tray menu's toggle item is labelled
`"Hide Revolt"` iff the window is currently visible and `"Show Revolt"`
iff it is hidden — the menu is rebuilt on every show/hide, so the label
is never stale. -/
theorem tray_label_never_stale (es : List UiEvent) (cfg : ConfigData)
    (hd : (es.foldl step (createWindow cfg)).windowDestroyed = false) :
    ((es.foldl step (createWindow cfg)).trayToggleLabel = "Hide Revolt"
      ↔ (es.foldl step (createWindow cfg)).windowVisible = true)
    ∧ ((es.foldl step (createWindow cfg)).trayToggleLabel = "Show Revolt"
      ↔ (es.foldl step (createWindow cfg)).windowVisible = false) := by
  have h0 : trayLabelOk (createWindow cfg) := fun _ => rfl
  have hlbl := foldl_preserves_trayLabelOk es (createWindow cfg) h0 hd
  cases hv : (es.foldl step (createWindow cfg)).windowVisible <;>
    rw [hv] at hlbl <;>
      simp only [buildMenuLabel, if_pos, if_neg, Bool.true_eq_false,
        Bool.false_eq_true, if_true, if_false] at hlbl <;>
      simp [hlbl]

/-- Witness for C5: after creation followed by a hide, the label reads
`"Show Revolt"`. -/
theorem tray_label_never_stale_witness :
    (([UiEvent.hide]).foldl step (createWindow (ConfigData.mk true false false))).trayToggleLabel
      = "Show Revolt" :=
  ((tray_label_never_stale [UiEvent.hide] (ConfigData.mk true false false)
    (by decide)).2).mpr (by decide)

/-! ## C6: set is a merge, never a full overwrite -/

/-- C6: after a `set` command the persisted config is the old config with
the patch merged in: every field present in the patch takes the patch
value, every field absent from the patch keeps its previous persisted
value, and the value written by the final persist is exactly that
merge. -/
theorem set_merge_semantics (old : ConfigData) (p : ConfigPatch) :
    (setHandler old p).1 = mergeConfig old p
    ∧ (setHandler old p).2.getLast? = some (Effect.persist (mergeConfig old p))
    ∧ (∀ b, p.frame = some b → (mergeConfig old p).frame = b)
    ∧ (p.frame = none → (mergeConfig old p).frame = old.frame)
    ∧ (∀ b, p.minimiseToTray = some b → (mergeConfig old p).minimiseToTray = b)
    ∧ (p.minimiseToTray = none → (mergeConfig old p).minimiseToTray = old.minimiseToTray)
    ∧ (∀ b, p.discordRPC = some b → (mergeConfig old p).discordRPC = b)
    ∧ (p.discordRPC = none → (mergeConfig old p).discordRPC = old.discordRPC) := by
  refine ⟨rfl, ?_, ?_, ?_, ?_, ?_, ?_, ?_⟩
  · rcases hrpc : p.discordRPC with _ | b
    · simp [setHandler, hrpc]
    · cases b <;> simp [setHandler, hrpc]
  · intro b hb; simp [mergeConfig, hb]
  · intro hb; simp [mergeConfig, hb]
  · intro b hb; simp [mergeConfig, hb]
  · intro hb; simp [mergeConfig, hb]
  · intro b hb; simp [mergeConfig, hb]
  · intro hb; simp [mergeConfig, hb]

/-- Witness for C6: a patch carrying only `minimiseToTray` leaves the
`frame` field of the stored config unchanged. -/
theorem set_merge_semantics_witness :
    (mergeConfig (ConfigData.mk true false true)
      (ConfigPatch.mk none (some true) none)).frame = true :=
  (set_merge_semantics (ConfigData.mk true false true)
    (ConfigPatch.mk none (some true) none)).2.2.2.1 rfl

/-! ## C7: discordRPC toggle sequence -/

/-- C7: `set {discordRPC := true}` followed by `set {discordRPC := false}`
emits exactly one connect and then exactly one disconnect, each directly
before its own persist, and the final persisted config has
`discordRPC = false`. -/
theorem set_discord_rpc_toggle (c0 : ConfigData) :
    (setHandler c0 (ConfigPatch.mk none none (some true))).2
      = [Effect.connectRPC,
         Effect.persist (setHandler c0 (ConfigPatch.mk none none (some true))).1]
    ∧ (setHandler (setHandler c0 (ConfigPatch.mk none none (some true))).1
          (ConfigPatch.mk none none (some false))).2
      = [Effect.dropRPC,
         Effect.persist (setHandler (setHandler c0 (ConfigPatch.mk none none (some true))).1
            (ConfigPatch.mk none none (some false))).1]
    ∧ (setHandler (setHandler c0 (ConfigPatch.mk none none (some true))).1
          (ConfigPatch.mk none none (some false))).1.discordRPC = false :=
  ⟨rfl, rfl, rfl⟩

/-! ## C8: relaunch teardown argument contract -/

/-- C8: with relaunch intent, the teardown spawns a process with args
`argv[1:] ++ ["--relaunch"]` and the current executable path, then quits;
on a packaged AppImage the executable path is overridden to the AppImage
and `--appimage-extract-and-run` is prepended to the args instead. -/
theorem relaunch_teardown_contract (argv : List String) (execPath : String)
    (isPackaged : Bool) (appimage : Option String) (platform : String) :
    windowAllClosed true argv execPath isPackaged appimage platform
      = [TeardownAction.relaunch (relaunchOptionsFor argv execPath isPackaged appimage),
         TeardownAction.quit]
    ∧ ((isPackaged && envTruthy appimage) = false →
        relaunchOptionsFor argv execPath isPackaged appimage
          = { args := argv.drop 1 ++ ["--relaunch"], execPath := execPath })
    ∧ (∀ p, isPackaged = true → appimage = some p → p ≠ "" →
        relaunchOptionsFor argv execPath isPackaged appimage
          = { args := "--appimage-extract-and-run" :: (argv.drop 1 ++ ["--relaunch"]),
              execPath := p }) := by
  refine ⟨rfl, ?_, ?_⟩
  · intro h
    simp [relaunchOptionsFor, h]
  · intro p hp ha hne
    subst ha
    simp [relaunchOptionsFor, envTruthy, hp, hne]

/-- Witness for C8: a packaged AppImage relaunch overrides the executable
and prepends the self-extract flag. -/
theorem relaunch_teardown_contract_witness :
    relaunchOptionsFor ["electron", "--flag"] "/usr/bin/electron" true
        (some "/tmp/Revolt.AppImage")
      = { args := ["--appimage-extract-and-run", "--flag", "--relaunch"],
          execPath := "/tmp/Revolt.AppImage" } :=
  (relaunch_teardown_contract ["electron", "--flag"] "/usr/bin/electron" true
    (some "/tmp/Revolt.AppImage") "linux").2.2 "/tmp/Revolt.AppImage" rfl rfl (by decide)

/-! ## C9: close interception reads the live store -/

/-- C9: the close interceptor reads `minimiseToTray` from the persisted
store at close time: whatever `initialConfig` snapshot the window was
created with, after a `set` patching `minimiseToTray := b` the very next
close request is intercepted iff `b` (window destroyed iff `!b`). -/
theorem close_reads_live_config (s : SystemState) (snapshot : ConfigData) (b : Bool)
    (hq : s.shouldQuit = false) (hr : s.shouldRelaunch = false)
    (hd : s.windowDestroyed = false) :
    (closeRequest (step { s with initialConfig := snapshot }
        (UiEvent.set (ConfigPatch.mk none (some b) none)))).windowDestroyed = !b := by
  cases b <;>
    simp [step, ipcSet, setHandler, mergeConfig, closeRequest, closeIntercepts,
      windowHide, hq, hr, hd]

/-- Witness for C9: a window created with `minimiseToTray = true` in its
snapshot is still destroyed by the next close after
`set {minimiseToTray := false}`. -/
theorem close_reads_live_config_witness :
    (closeRequest (step { createWindow (ConfigData.mk true true true) with
        initialConfig := ConfigData.mk true true true }
      (UiEvent.set (ConfigPatch.mk none (some false) none)))).windowDestroyed = true :=
  close_reads_live_config (createWindow (ConfigData.mk true true true))
    (ConfigData.mk true true true) false rfl rfl rfl

/-! ## C10: RPC side effect keyed on patch presence -/

/-- C10: whenever a `set` patch carries a defined `discordRPC` field, the
connect (for `true`) or disconnect (for `false`) fires unconditionally —
here even under the extra assumption that the stored value already equals
the patched value, i.e. the effect is keyed on the field's presence, not
on a state change. -/
theorem rpc_keyed_on_patch_presence (old : ConfigData) (p : ConfigPatch) (b : Bool)
    (hp : p.discordRPC = some b) (_hsame : old.discordRPC = b) :
    (setHandler old p).2
      = (if b then [Effect.connectRPC] else [Effect.dropRPC])
          ++ [Effect.persist (mergeConfig old p)] := by
  simp [setHandler, hp]

/-- Witness for C10: with `discordRPC` already `true` in the store, a
patch re-asserting `true` still emits a connect. -/
theorem rpc_keyed_on_patch_presence_witness :
    (setHandler (ConfigData.mk true true true) (ConfigPatch.mk none none (some true))).2
      = [Effect.connectRPC,
         Effect.persist (mergeConfig (ConfigData.mk true true true)
            (ConfigPatch.mk none none (some true)))] :=
  rpc_keyed_on_patch_presence (ConfigData.mk true true true)
    (ConfigPatch.mk none none (some true)) true rfl rfl

end Revolt
